import Mathlib

/-!
Shallow embedding of `storage-lib-azure-node`: a thin facade over the Azure
blob/queue SDK.  The embedded files are `util.js` (StorageError,
streamToString), `blobcontainer.js` (class BlobContainer) and the two
versions of `storagequeue.js` (class StorageQueue, embedded here as
StorageQueueV1 and StorageQueueV2 in source order).

JavaScript idioms are modelled explicitly:
  * optional / nullable values are `Option`;
  * JS truthiness of strings (`undefined`, `null` and `""` are falsy) is
    `jsTruthy`; of numbers (`0` is falsy) `jsTruthyInt`;
  * `x || d` on strings is `jsOrStr`, on numeric status codes `jsOrNat`;
  * a `try { ... } catch (error) { throw new StorageError(error.statusCode || 500, error.message) }`
    wrapper around an SDK call is `tryOp`;
  * the vendor SDK calls themselves are parameters of each operation:
    an operation takes the behaviour of the underlying SDK call
    (`Except SdkError _`, or a function from the forwarded arguments to
    such a result) and produces the wrapper's observable result.
-/

namespace StorageLib

/-- `class StorageError extends Error { constructor (code, message) { super(message); this.code = code } }`
from `util.js`.  Note: the field is `code`; the class has no `statusCode`. -/
structure StorageError where
  code : Nat
  message : String
deriving Repr, DecidableEq

/-- An exception thrown by an underlying SDK/service call: Azure `RestError`s
carry an HTTP `statusCode` (possibly absent) and a `message`. -/
structure SdkError where
  statusCode : Option Nat
  message : String
deriving Repr, DecidableEq

/-- JS truthiness of a possibly-absent string: `undefined`, `null` and `""` are falsy. -/
def jsTruthy : Option String → Bool
  | none => false
  | some s => !(s == "")

/-- JS truthiness of a possibly-absent number: absent and `0` are falsy. -/
def jsTruthyInt : Option Int → Bool
  | none => false
  | some n => !(n == 0)

/-- JS `x || d` for strings: falsy (`null`/`undefined`/`""`) falls back to `d`. -/
def jsOrStr (x : Option String) (d : String) : String :=
  match x with
  | none => d
  | some s => if s == "" then d else s

/-- JS `x || d` for a possibly-absent numeric status code: absent and `0` fall back to `d`. -/
def jsOrNat (x : Option Nat) (d : Nat) : Nat :=
  match x with
  | none => d
  | some c => if c == 0 then d else c

/-- The catch-clause `new StorageError(error.statusCode || 500, error.message)`
applied to an SDK failure. -/
def wrapError (e : SdkError) : StorageError :=
  ⟨jsOrNat e.statusCode 500, e.message⟩

/-- `try { return <sdk call result> } catch (error) { throw new StorageError(error.statusCode || 500, error.message) }`. -/
def tryOp {α : Type} (r : Except SdkError α) : Except StorageError α :=
  match r with
  | .ok a => .ok a
  | .error e => .error (wrapError e)

/-- `new StorageSharedKeyCredential(accountName, accountKey)` from the SDK. -/
structure StorageSharedKeyCredential where
  accountName : String
  accountKey : String
deriving Repr, DecidableEq

/-- The service client handle built at construction: either an endpoint URL
plus a shared-key credential, or an endpoint URL with a SAS token appended. -/
inductive ServiceClient where
  | withCredential (url : String) (cred : StorageSharedKeyCredential)
  | withSasUrl (url : String)
deriving Repr, DecidableEq

/-- The observable state of a constructed facade instance (`BlobContainer`
or `StorageQueue`): the stored constructor arguments, the optional
shared-key signing credential, and the client handle. -/
structure Facade where
  accountName : Option String
  accountKey : Option String
  sasToken : Option String
  sharedKeyCredential : Option StorageSharedKeyCredential
  client : ServiceClient
deriving Repr, DecidableEq

/-- The common constructor body of `BlobContainer` and both `StorageQueue`
versions, parameterised by the service host segment (`"blob"` or `"queue"`).

The source stores `accountName`/`accountKey`/`sasToken` on `this`, then inside
`try`: shared-key branch if `this.accountName && this.accountKey`, else SAS
branch if `this.accountName && this.sasToken`, else
`throw new StorageError(401, 'Missing authentication')`.  The surrounding
`catch` rethrows `new StorageError(error.statusCode || 500, error.message)`;
a `StorageError` carries `code`, not `statusCode`, so the rethrown code is
always `500`. -/
def mkFacadeCore (service : String) (accountName accountKey sasToken : Option String) :
    Except StorageError Facade :=
  let inner : Except StorageError Facade :=
    if jsTruthy accountName && jsTruthy accountKey then
      let cred : StorageSharedKeyCredential := ⟨accountName.getD "", accountKey.getD ""⟩
      .ok { accountName := accountName, accountKey := accountKey, sasToken := sasToken,
            sharedKeyCredential := some cred,
            client := .withCredential
              ("https://" ++ accountName.getD "" ++ "." ++ service ++ ".core.windows.net") cred }
    else if jsTruthy accountName && jsTruthy sasToken then
      .ok { accountName := accountName, accountKey := accountKey, sasToken := sasToken,
            sharedKeyCredential := none,
            client := .withSasUrl
              ("https://" ++ accountName.getD "" ++ "." ++ service ++ ".core.windows.net?"
                ++ sasToken.getD "") }
    else
      .error ⟨401, "Missing authentication"⟩
  match inner with
  | .ok f => .ok f
  | .error e => .error ⟨500, e.message⟩

/-- A `{ requestId }`-carrying SDK response (container/queue create and delete). -/
structure SdkResponse where
  requestId : String
deriving Repr, DecidableEq

/-- A container item from `listContainers` enumeration (only `name` is read). -/
structure ContainerItem where
  name : String
deriving Repr, DecidableEq

/-- A blob item from `listBlobsFlat` enumeration (pushed whole). -/
structure BlobItem where
  name : String
deriving Repr, DecidableEq

/-- A queue item from `listQueues` enumeration (only `name` is read). -/
structure QueueItem where
  name : String
deriving Repr, DecidableEq

/-- The SDK response of `queueClient.sendMessage` (fields the wrapper reads,
plus `popReceipt` which it discards). -/
structure QueueSendMessageResponse where
  messageId : String
  requestId : String
  popReceipt : String
deriving Repr, DecidableEq

/-- The wrapper's `sendMessage` result `{ messageId, requestId }`. -/
structure SendMessageResponse where
  messageId : String
  requestId : String
deriving Repr, DecidableEq

/-- A Node readable stream's observable behaviour, as consumed by
`streamToString`: a sequence of `data` chunks followed by `end`, or a
sequence of `data` chunks followed by an `error` event. -/
inductive StreamBody where
  | chunks (cs : List String)
  | failing (cs : List String) (e : SdkError)
deriving Repr, DecidableEq

/-- `streamToString` from `util.js`: pushes `data.toString()` for each chunk
in order, resolves `chunks.join('')` on `end`, rejects on `error`. -/
def streamToString : StreamBody → Except SdkError String
  | .chunks cs => .ok (String.join cs)
  | .failing _ e => .error e

/-! SDK SAS-token machinery (`@azure/storage-blob` / `@azure/storage-queue`):
permission parsers and the query-parameter generators.  These are modelled
from the vendor SDK's behaviour; the generated signature string itself is
abstracted into the structured `SasQueryParameters` record that determines it
(the wrapper returns `toString()` of this record). -/

/-- The `sr` resource type of a SAS token: blob, container or queue. -/
inductive SasResource where
  | b
  | c
  | q
deriving Repr, DecidableEq

/-- Which SDK permission parser produced the token's permission set. -/
inductive SasPermKind where
  | blob
  | container
  | queue
deriving Repr, DecidableEq

/-- `BlobSASPermissions` flags from the SDK. -/
structure BlobSASPermissions where
  read : Bool := false
  add : Bool := false
  create : Bool := false
  write : Bool := false
  delete : Bool := false
deriving Repr, DecidableEq

/-- `BlobSASPermissions.parse`: accepts the characters `racwd`, throwing a
`RangeError` on any other character. -/
def BlobSASPermissions.parse (s : String) : Except String BlobSASPermissions :=
  s.toList.foldlM (fun p ch =>
    match ch with
    | 'r' => .ok { p with read := true }
    | 'a' => .ok { p with add := true }
    | 'c' => .ok { p with create := true }
    | 'w' => .ok { p with write := true }
    | 'd' => .ok { p with delete := true }
    | _ => .error ("Invalid permission: " ++ String.singleton ch)) {}

/-- Canonical `toString()` of blob SAS permissions (order `racwd`). -/
def BlobSASPermissions.toStr (p : BlobSASPermissions) : String :=
  (if p.read then "r" else "") ++ (if p.add then "a" else "")
    ++ (if p.create then "c" else "") ++ (if p.write then "w" else "")
    ++ (if p.delete then "d" else "")

/-- `ContainerSASPermissions` flags from the SDK. -/
structure ContainerSASPermissions where
  read : Bool := false
  add : Bool := false
  create : Bool := false
  write : Bool := false
  delete : Bool := false
  list : Bool := false
deriving Repr, DecidableEq

/-- `ContainerSASPermissions.parse`: accepts the characters `racwdl`,
throwing a `RangeError` on any other character. -/
def ContainerSASPermissions.parse (s : String) : Except String ContainerSASPermissions :=
  s.toList.foldlM (fun p ch =>
    match ch with
    | 'r' => .ok { p with read := true }
    | 'a' => .ok { p with add := true }
    | 'c' => .ok { p with create := true }
    | 'w' => .ok { p with write := true }
    | 'd' => .ok { p with delete := true }
    | 'l' => .ok { p with list := true }
    | _ => .error ("Invalid permission: " ++ String.singleton ch)) {}

/-- Canonical `toString()` of container SAS permissions (order `racwdl`). -/
def ContainerSASPermissions.toStr (p : ContainerSASPermissions) : String :=
  (if p.read then "r" else "") ++ (if p.add then "a" else "")
    ++ (if p.create then "c" else "") ++ (if p.write then "w" else "")
    ++ (if p.delete then "d" else "") ++ (if p.list then "l" else "")

/-- `QueueSASPermissions` flags from the SDK. -/
structure QueueSASPermissions where
  read : Bool := false
  add : Bool := false
  update : Bool := false
  process : Bool := false
deriving Repr, DecidableEq

/-- `QueueSASPermissions.parse`: accepts the characters `raup`, throwing a
`RangeError` on any other character. -/
def QueueSASPermissions.parse (s : String) : Except String QueueSASPermissions :=
  s.toList.foldlM (fun p ch =>
    match ch with
    | 'r' => .ok { p with read := true }
    | 'a' => .ok { p with add := true }
    | 'u' => .ok { p with update := true }
    | 'p' => .ok { p with process := true }
    | _ => .error ("Invalid permission: " ++ String.singleton ch)) {}

/-- Canonical `toString()` of queue SAS permissions (order `raup`). -/
def QueueSASPermissions.toStr (p : QueueSASPermissions) : String :=
  (if p.read then "r" else "") ++ (if p.add then "a" else "")
    ++ (if p.update then "u" else "") ++ (if p.process then "p" else "")

/-- A raw JavaScript exception as it escapes an operation without a
try/catch: either a thrown `StorageError`, or a `TypeError`/`RangeError`
raised by the SDK SAS helpers. -/
inductive JsError where
  | storage (e : StorageError)
  | typeError (message : String)
  | rangeError (message : String)
deriving Repr, DecidableEq

/-- `true` exactly when an operation's outcome is a thrown `StorageError`. -/
def throwsStorageError {α : Type} : Except JsError α → Bool
  | .error (.storage _) => true
  | _ => false

/-- The data of a generated SAS token (the structured content serialised by
`SasQueryParameters.toString()`): resource type, permissions (canonical
string plus the parser kind that produced it), validity window in epoch
milliseconds, the named resource, and the credential whose key signed it. -/
structure SasQueryParameters where
  resource : SasResource
  permKind : SasPermKind
  permissions : String
  startsOn : Int
  expiresOn : Int
  containerName : String
  blobName : Option String
  signedWith : StorageSharedKeyCredential
deriving Repr, DecidableEq

/-- The `blobSASSignatureValues` record handed to `generateBlobSASQueryParameters`. -/
structure BlobSasValues where
  containerName : String
  blobName : Option String := none
  permKind : SasPermKind
  permissions : String
  startsOn : Int
  expiresOn : Int
deriving Repr, DecidableEq

/-- `generateBlobSASQueryParameters(values, sharedKeyCredential)`: throws a
`TypeError` when no shared-key credential is supplied; otherwise signs and
returns the query parameters, with resource `b` when a blob name is present
in the values and `c` otherwise. -/
def generateBlobSASQueryParameters (v : BlobSasValues)
    (cred : Option StorageSharedKeyCredential) : Except JsError SasQueryParameters :=
  match cred with
  | none => .error (.typeError "Invalid sharedKeyCredential, userDelegationKey or accountName.")
  | some c =>
      .ok { resource := if jsTruthy v.blobName then .b else .c
            permKind := v.permKind
            permissions := v.permissions
            startsOn := v.startsOn
            expiresOn := v.expiresOn
            containerName := v.containerName
            blobName := v.blobName
            signedWith := c }

/-- The `queueSASSignatureValues` record handed to `generateQueueSASQueryParameters`
(the wrapper passes the queue name under the key `containerName`). -/
structure QueueSasValues where
  containerName : String
  permissions : String
  startsOn : Int
  expiresOn : Int
deriving Repr, DecidableEq

/-- `generateQueueSASQueryParameters(values, sharedKeyCredential)`: throws a
`TypeError` when no shared-key credential is supplied; otherwise signs and
returns queue-resource query parameters. -/
def generateQueueSASQueryParameters (v : QueueSasValues)
    (cred : Option StorageSharedKeyCredential) : Except JsError SasQueryParameters :=
  match cred with
  | none => .error (.typeError "Invalid sharedKeyCredential, userDelegationKey or accountName.")
  | some c =>
      .ok { resource := .q
            permKind := .queue
            permissions := v.permissions
            startsOn := v.startsOn
            expiresOn := v.expiresOn
            containerName := v.containerName
            blobName := none
            signedWith := c }

namespace BlobContainer

/-- `new BlobContainer({accountName, accountKey = null, sasToken = null})`. -/
def mk (accountName accountKey sasToken : Option String) : Except StorageError Facade :=
  mkFacadeCore "blob" accountName accountKey sasToken

/-- `createContainer({containerName})`: awaits `containerClient.create()` and
returns its `requestId`, try/catch-wrapped. -/
def createContainer (create : Except SdkError SdkResponse) : Except StorageError String :=
  tryOp (create.map (fun r => r.requestId))

/-- `listContainers()`: iterates the SDK enumeration pushing each
`container.name`, try/catch-wrapped. -/
def listContainers (iter : Except SdkError (List ContainerItem)) :
    Except StorageError (List String) :=
  tryOp (iter.map (fun cs => cs.map (fun c => c.name)))

/-- `createBlob({containerName, blobName, content})`: awaits
`blockBlobClient.upload(content, Buffer.byteLength(content))` and returns
`uploadBlobResponse.requestId`, try/catch-wrapped.  `upload` is the SDK
call's behaviour as a function of the two arguments the wrapper passes. -/
def createBlob (upload : String → Nat → Except SdkError SdkResponse)
    (blobName content : String) : Except StorageError String :=
  tryOp ((upload content content.utf8ByteSize).map (fun r => r.requestId))

/-- `listBlobs({containerName})`: iterates `listBlobsFlat()` pushing each
whole blob item, try/catch-wrapped. -/
def listBlobs (iter : Except SdkError (List BlobItem)) :
    Except StorageError (List BlobItem) :=
  tryOp iter

/-- `getBlobContent({containerName, blobName})`: awaits
`blockBlobClient.download(0)` (offset `0`, no count argument), then
`streamToString(response.readableStreamBody)`, try/catch-wrapped.
`download` is the SDK call's behaviour as a function of the offset and the
optional count the wrapper passes. -/
def getBlobContent (download : Int → Option Int → Except SdkError StreamBody) :
    Except StorageError String :=
  tryOp (do
    let body ← download 0 none
    streamToString body)

/-- `deleteContainer({containerName})`: awaits `containerClient.delete()` and
returns `true`, try/catch-wrapped. -/
def deleteContainer (del : Except SdkError Unit) : Except StorageError Bool :=
  tryOp (del.map (fun _ => true))

/-- `deleteBlob({containerName, blobName})`: awaits `blockBlobClient.delete()`
and returns `true`, try/catch-wrapped. -/
def deleteBlob (del : Except SdkError Unit) : Except StorageError Bool :=
  tryOp (del.map (fun _ => true))

/-- `generateSasToken({containerName, blobName, permissions = null, expireTime = 60, clockSkewMarginMinutes = 5})`.

No try/catch.  `startDate = now - clockSkewMarginMinutes` minutes,
`expiryDate = now + expireTime` minutes (times in epoch milliseconds;
`now` is the `new Date()` the method takes).  `permissions = permissions || 'r'`.
If `blobName` is truthy, parse with `BlobSASPermissions` and sign blob-scoped
values including `blobName`; otherwise parse with `ContainerSASPermissions`
and sign container-scoped values.  Returns the signed query parameters
(serialised by `toString()` in the source). -/
def generateSasToken (f : Facade) (now : Int) (containerName : String)
    (blobName : Option String) (permissions : Option String)
    (expireTime clockSkewMarginMinutes : Option Int) :
    Except JsError SasQueryParameters :=
  let startDate : Int := now - (clockSkewMarginMinutes.getD 5) * 60000
  let expiryDate : Int := now + (expireTime.getD 60) * 60000
  let perms : String := jsOrStr permissions "r"
  if jsTruthy blobName then
    match BlobSASPermissions.parse perms with
    | .error m => .error (.rangeError m)
    | .ok p =>
        generateBlobSASQueryParameters
          { containerName := containerName, blobName := blobName,
            permKind := .blob, permissions := p.toStr,
            startsOn := startDate, expiresOn := expiryDate }
          f.sharedKeyCredential
  else
    match ContainerSASPermissions.parse perms with
    | .error m => .error (.rangeError m)
    | .ok p =>
        generateBlobSASQueryParameters
          { containerName := containerName, blobName := none,
            permKind := .container, permissions := p.toStr,
            startsOn := startDate, expiresOn := expiryDate }
          f.sharedKeyCredential

end BlobContainer

/-! The first `StorageQueue` class in the source (lines 268-405 of the
combined file): no list prefix, no sendMessage options, no SAS generation. -/
namespace StorageQueueV1

/-- `new StorageQueue({accountName, accountKey = null, sasToken = null})` (first version). -/
def mk (accountName accountKey sasToken : Option String) : Except StorageError Facade :=
  mkFacadeCore "queue" accountName accountKey sasToken

/-- `create({queueName})`: awaits `queueClient.create()` and returns its
`requestId`, try/catch-wrapped. -/
def create (c : Except SdkError SdkResponse) : Except StorageError String :=
  tryOp (c.map (fun r => r.requestId))

/-- `list()`: calls `this.client.listQueues()` with no options (no prefix
filter) and pushes each `queue.name`, try/catch-wrapped.  `listQueues` is the
SDK enumeration as a function of the optional prefix option. -/
def list (listQueues : Option String → Except SdkError (List QueueItem)) :
    Except StorageError (List String) :=
  tryOp ((listQueues none).map (fun qs => qs.map (fun q => q.name)))

/-- `delete({queueName})`: awaits `queueClient.delete()` and returns its
`requestId`, try/catch-wrapped. -/
def delete (d : Except SdkError SdkResponse) : Except StorageError String :=
  tryOp (d.map (fun r => r.requestId))

/-- `sendMessage({queueName, message})`: awaits `queueClient.sendMessage(message)`
(no options: no time-to-live, no visibility timeout) and returns
`{messageId, requestId}`, try/catch-wrapped.  `send` is the SDK call's
behaviour as a function of the message and the two optional option fields. -/
def sendMessage
    (send : String → Option Int → Option Int → Except SdkError QueueSendMessageResponse)
    (message : String) : Except StorageError SendMessageResponse :=
  tryOp ((send message none none).map (fun r => ⟨r.messageId, r.requestId⟩))

/-- `peekMessages({queueName})`: awaits `queueClient.peekMessages()` and
returns the response unchanged, try/catch-wrapped. -/
def peekMessages {α : Type} (peek : Except SdkError α) : Except StorageError α :=
  tryOp peek

end StorageQueueV1

/-! The second `StorageQueue` class in the source (lines 418-622 of the
combined file): optional list prefix, sendMessage options, SAS generation. -/
namespace StorageQueueV2

/-- `new StorageQueue({accountName, accountKey = null, sasToken = null})` (second version). -/
def mk (accountName accountKey sasToken : Option String) : Except StorageError Facade :=
  mkFacadeCore "queue" accountName accountKey sasToken

/-- `create({queueName})`: identical to the first version. -/
def create (c : Except SdkError SdkResponse) : Except StorageError String :=
  tryOp (c.map (fun r => r.requestId))

/-- `list({prefix = null})`: builds `options` with `options.prefix = prefix`
only when `prefix` is truthy, calls `this.client.listQueues(options)` and
pushes each `queue.name`, try/catch-wrapped. -/
def list (listQueues : Option String → Except SdkError (List QueueItem))
    (pfx : Option String) : Except StorageError (List String) :=
  let options : Option String := if jsTruthy pfx then pfx else none
  tryOp ((listQueues options).map (fun qs => qs.map (fun q => q.name)))

/-- `delete({queueName})`: identical to the first version. -/
def delete (d : Except SdkError SdkResponse) : Except StorageError String :=
  tryOp (d.map (fun r => r.requestId))

/-- `sendMessage({queueName, message, timeToLive = null, visibilityTimeout = null})`:
builds `options` with `options.messageTimeToLive = timeToLive` only when
truthy and `options.visibilityTimeout = visibilityTimeout` only when truthy,
awaits `queueClient.sendMessage(message, options)` and returns
`{messageId, requestId}`, try/catch-wrapped. -/
def sendMessage
    (send : String → Option Int → Option Int → Except SdkError QueueSendMessageResponse)
    (message : String) (timeToLive visibilityTimeout : Option Int) :
    Except StorageError SendMessageResponse :=
  let ttl : Option Int := if jsTruthyInt timeToLive then timeToLive else none
  let vis : Option Int := if jsTruthyInt visibilityTimeout then visibilityTimeout else none
  tryOp ((send message ttl vis).map (fun r => ⟨r.messageId, r.requestId⟩))

/-- `peekMessages({queueName})`: identical to the first version. -/
def peekMessages {α : Type} (peek : Except SdkError α) : Except StorageError α :=
  tryOp peek

/-- `generateSasToken({queueName, permissions = null, expireTime = 60, clockSkewMarginMinutes = 5})`.

No try/catch.  Same time window as the blob version; always parses with
`QueueSASPermissions` and signs queue-scoped values (the queue name is passed
under the `containerName` key). -/
def generateSasToken (f : Facade) (now : Int) (queueName : String)
    (permissions : Option String) (expireTime clockSkewMarginMinutes : Option Int) :
    Except JsError SasQueryParameters :=
  let startDate : Int := now - (clockSkewMarginMinutes.getD 5) * 60000
  let expiryDate : Int := now + (expireTime.getD 60) * 60000
  let perms : String := jsOrStr permissions "r"
  match QueueSASPermissions.parse perms with
  | .error m => .error (.rangeError m)
  | .ok p =>
      generateQueueSASQueryParameters
        { containerName := queueName, permissions := p.toStr,
          startsOn := startDate, expiresOn := expiryDate }
        f.sharedKeyCredential

end StorageQueueV2

/-- The facade produced by `new BlobContainer({accountName: "acct", sasToken: "tok"})`. -/
def sasOnlyBlobFacade : Facade :=
  ⟨some "acct", none, some "tok", none, .withSasUrl "https://acct.blob.core.windows.net?tok"⟩

/-- The facade produced by `new BlobContainer({accountName: "acct", accountKey: "key"})`. -/
def sharedKeyBlobFacade : Facade :=
  ⟨some "acct", some "key", none, some ⟨"acct", "key"⟩,
    .withCredential "https://acct.blob.core.windows.net" ⟨"acct", "key"⟩⟩

/-- The facade produced by `new StorageQueue({accountName: "acct", accountKey: "key"})`. -/
def sharedKeyQueueFacade : Facade :=
  ⟨some "acct", some "key", none, some ⟨"acct", "key"⟩,
    .withCredential "https://acct.queue.core.windows.net" ⟨"acct", "key"⟩⟩

/-! Helper lemmas characterising the constructor and the SAS generators. -/

theorem mkFacadeCore_key (service : String) (an ak st : Option String)
    (h1 : jsTruthy an = true) (h2 : jsTruthy ak = true) :
    mkFacadeCore service an ak st =
      .ok ⟨an, ak, st, some ⟨an.getD "", ak.getD ""⟩,
        .withCredential ("https://" ++ an.getD "" ++ "." ++ service ++ ".core.windows.net")
          ⟨an.getD "", ak.getD ""⟩⟩ := by
  unfold mkFacadeCore
  rw [h1, h2]
  rfl

theorem mkFacadeCore_sas (service : String) (an ak st : Option String)
    (h1 : jsTruthy an = true) (h2 : jsTruthy ak = false) (h3 : jsTruthy st = true) :
    mkFacadeCore service an ak st =
      .ok ⟨an, ak, st, none,
        .withSasUrl ("https://" ++ an.getD "" ++ "." ++ service ++ ".core.windows.net?"
          ++ st.getD "")⟩ := by
  unfold mkFacadeCore
  rw [h1, h2, h3]
  rfl

theorem mkFacadeCore_missing (service : String) (an ak st : Option String)
    (h2 : jsTruthy ak = false) (h3 : jsTruthy st = false) :
    mkFacadeCore service an ak st = .error ⟨500, "Missing authentication"⟩ := by
  unfold mkFacadeCore
  rw [h2, h3]
  cases jsTruthy an <;> rfl

theorem mkFacadeCore_ok_elim (service : String) (an ak st : Option String) (f : Facade)
    (h : mkFacadeCore service an ak st = .ok f) :
    jsTruthy an = true ∧ f.accountName = an ∧ f.accountKey = ak ∧ f.sasToken = st ∧
      ((jsTruthy ak = true ∧ f.sharedKeyCredential = some ⟨an.getD "", ak.getD ""⟩)
        ∨ (jsTruthy ak = false ∧ jsTruthy st = true ∧ f.sharedKeyCredential = none)) := by
  cases han : jsTruthy an with
  | false =>
      unfold mkFacadeCore at h
      rw [han] at h
      simp at h
  | true =>
      cases hak : jsTruthy ak with
      | true =>
          rw [mkFacadeCore_key service an ak st han hak] at h
          cases h
          exact ⟨rfl, rfl, rfl, rfl, Or.inl ⟨rfl, rfl⟩⟩
      | false =>
          cases hst : jsTruthy st with
          | true =>
              rw [mkFacadeCore_sas service an ak st han hak hst] at h
              cases h
              exact ⟨rfl, rfl, rfl, rfl, Or.inr ⟨rfl, rfl, rfl⟩⟩
          | false =>
              rw [mkFacadeCore_missing service an ak st hak hst] at h
              exact absurd h (by simp)

theorem blob_generateSasToken_ok_elim (f : Facade) (now : Int) (cn : String)
    (bn p : Option String) (et cs : Option Int) (tok : SasQueryParameters)
    (h : BlobContainer.generateSasToken f now cn bn p et cs = .ok tok) :
    f.sharedKeyCredential = some tok.signedWith
    ∧ tok.startsOn = now - (cs.getD 5) * 60000
    ∧ tok.expiresOn = now + (et.getD 60) * 60000
    ∧ tok.containerName = cn
    ∧ (jsTruthy bn = true →
        tok.resource = .b ∧ tok.blobName = bn ∧ tok.permKind = .blob
        ∧ ∃ pp, BlobSASPermissions.parse (jsOrStr p "r") = .ok pp
            ∧ tok.permissions = pp.toStr)
    ∧ (jsTruthy bn = false →
        tok.resource = .c ∧ tok.blobName = none ∧ tok.permKind = .container
        ∧ ∃ pp, ContainerSASPermissions.parse (jsOrStr p "r") = .ok pp
            ∧ tok.permissions = pp.toStr) := by
  simp only [BlobContainer.generateSasToken] at h
  split at h
  case isTrue hbn =>
    split at h
    case h_1 => simp at h
    case h_2 pp hp =>
      simp only [generateBlobSASQueryParameters] at h
      cases hcred : f.sharedKeyCredential with
      | none => rw [hcred] at h; simp at h
      | some cred =>
          rw [hcred] at h
          simp only [Except.ok.injEq] at h
          subst h
          refine ⟨rfl, rfl, rfl, rfl, fun _ => ⟨by simp [hbn], rfl, rfl, pp, hp, rfl⟩,
            fun hf => ?_⟩
          rw [hf] at hbn
          exact absurd hbn (by simp)
  case isFalse hbn =>
    split at h
    case h_1 => simp at h
    case h_2 pp hp =>
      simp only [generateBlobSASQueryParameters] at h
      cases hcred : f.sharedKeyCredential with
      | none => rw [hcred] at h; simp at h
      | some cred =>
          rw [hcred] at h
          simp only [Except.ok.injEq] at h
          subst h
          refine ⟨rfl, rfl, rfl, rfl, fun ht => ?_,
            fun _ => ⟨by simp [jsTruthy], rfl, rfl, pp, hp, rfl⟩⟩
          exact absurd ht hbn

theorem queue_generateSasToken_ok_elim (f : Facade) (now : Int) (qn : String)
    (p : Option String) (et cs : Option Int) (tok : SasQueryParameters)
    (h : StorageQueueV2.generateSasToken f now qn p et cs = .ok tok) :
    f.sharedKeyCredential = some tok.signedWith
    ∧ tok.startsOn = now - (cs.getD 5) * 60000
    ∧ tok.expiresOn = now + (et.getD 60) * 60000
    ∧ tok.containerName = qn
    ∧ tok.resource = .q ∧ tok.permKind = .queue ∧ tok.blobName = none
    ∧ ∃ pp, QueueSASPermissions.parse (jsOrStr p "r") = .ok pp
        ∧ tok.permissions = pp.toStr := by
  simp only [StorageQueueV2.generateSasToken] at h
  split at h
  case h_1 => simp at h
  case h_2 pp hp =>
    simp only [generateQueueSASQueryParameters] at h
    cases hcred : f.sharedKeyCredential with
    | none => rw [hcred] at h; simp at h
    | some cred =>
        rw [hcred] at h
        simp only [Except.ok.injEq] at h
        subst h
        exact ⟨rfl, rfl, rfl, rfl, rfl, rfl, rfl, pp, hp, rfl⟩

theorem blob_generateSasToken_noCred_fails (f : Facade)
    (h : f.sharedKeyCredential = none) (now : Int) (cn : String) (bn p : Option String)
    (et cs : Option Int) :
    BlobContainer.generateSasToken f now cn bn p et cs
      = .error (.typeError "Invalid sharedKeyCredential, userDelegationKey or accountName.")
    ∨ ∃ m, BlobContainer.generateSasToken f now cn bn p et cs = .error (.rangeError m) := by
  simp only [BlobContainer.generateSasToken]
  split
  · split
    · exact Or.inr ⟨_, rfl⟩
    · simp only [generateBlobSASQueryParameters, h]
      exact Or.inl trivial
  · split
    · exact Or.inr ⟨_, rfl⟩
    · simp only [generateBlobSASQueryParameters, h]
      exact Or.inl trivial

theorem queue_generateSasToken_noCred_fails (f : Facade)
    (h : f.sharedKeyCredential = none) (now : Int) (qn : String) (p : Option String)
    (et cs : Option Int) :
    StorageQueueV2.generateSasToken f now qn p et cs
      = .error (.typeError "Invalid sharedKeyCredential, userDelegationKey or accountName.")
    ∨ ∃ m, StorageQueueV2.generateSasToken f now qn p et cs = .error (.rangeError m) := by
  simp only [StorageQueueV2.generateSasToken]
  split
  · exact Or.inr ⟨_, rfl⟩
  · simp only [generateQueueSASQueryParameters, h]
    exact Or.inl trivial

/-- Claim C1: constructing a Facade (BlobContainer or either StorageQueue)
with neither accountKey nor sasToken does fail with message
"Missing authentication", but the thrown `StorageError` carries code `500`,
not the claimed `401`: the constructor throws `StorageError(401, ...)`
inside its own `try`, and the `catch` rethrows
`new StorageError(error.statusCode || 500, error.message)` — `StorageError`
stores its code in `code`, so `error.statusCode` is `undefined` and the
rethrown code defaults to `500`.  Evaluated at the failing input
`{accountName: "myaccount"}`. -/
theorem missing_auth_rethrown_as_500 :
    BlobContainer.mk (some "myaccount") none none
      = .error ⟨500, "Missing authentication"⟩
    ∧ StorageQueueV1.mk (some "myaccount") none none
      = .error ⟨500, "Missing authentication"⟩
    ∧ StorageQueueV2.mk (some "myaccount") none none
      = .error ⟨500, "Missing authentication"⟩ := ⟨rfl, rfl, rfl⟩

/-- Claim C10: the two `StorageQueue` class definitions in the source are
behaviourally equivalent on their common surface: `create`, `delete` and
`peekMessages` agree on every SDK behaviour; the later `list` called with no
prefix equals the earlier `list`; the later `sendMessage` with no
`timeToLive` and no `visibilityTimeout` equals the earlier `sendMessage`;
and the constructors agree on every input. -/
theorem storageQueue_versions_equivalent :
    (∀ c : Except SdkError SdkResponse, StorageQueueV2.create c = StorageQueueV1.create c)
    ∧ (∀ d : Except SdkError SdkResponse, StorageQueueV2.delete d = StorageQueueV1.delete d)
    ∧ (∀ (α : Type) (peek : Except SdkError α),
        StorageQueueV2.peekMessages peek = StorageQueueV1.peekMessages peek)
    ∧ (∀ lq : Option String → Except SdkError (List QueueItem),
        StorageQueueV2.list lq none = StorageQueueV1.list lq)
    ∧ (∀ (send : String → Option Int → Option Int → Except SdkError QueueSendMessageResponse)
        (m : String),
        StorageQueueV2.sendMessage send m none none = StorageQueueV1.sendMessage send m)
    ∧ (∀ an ak st : Option String, StorageQueueV2.mk an ak st = StorageQueueV1.mk an ak st) :=
  ⟨fun _ => rfl, fun _ => rfl, fun _ _ => rfl, fun _ => rfl, fun _ _ => rfl,
    fun _ _ _ => rfl⟩

/-- Claim C4 counterexample: an instance CAN be constructed with both
`accountKey` and `sasToken` supplied — construction succeeds in shared-key
mode and retains both values — so "exactly one of accountKey and sasToken
was supplied" and "an instance was never constructed with both set" fail. -/
theorem construction_with_both_credentials_succeeds :
    BlobContainer.mk (some "acct") (some "key") (some "tok")
      = .ok ⟨some "acct", some "key", some "tok", some ⟨"acct", "key"⟩,
          .withCredential "https://acct.blob.core.windows.net" ⟨"acct", "key"⟩⟩ := rfl

/-- Claim C4 (amended): after successful construction, `accountName` and at
least one of `accountKey`/`sasToken` were supplied (truthy); supplying
neither is a configuration error (construction fails); when both are
supplied, the shared-key branch wins: the instance holds the shared-key
credential and retains both stored values. -/
theorem construction_credential_modes :
    (∀ (service : String) (an ak st : Option String) (f : Facade),
        mkFacadeCore service an ak st = .ok f →
          jsTruthy an = true ∧ (jsTruthy ak = true ∨ jsTruthy st = true))
    ∧ (∀ (service : String) (an ak st : Option String),
        jsTruthy ak = false → jsTruthy st = false →
          mkFacadeCore service an ak st = .error ⟨500, "Missing authentication"⟩)
    ∧ (∀ (service : String) (an ak st : Option String) (f : Facade),
        jsTruthy an = true → jsTruthy ak = true →
          mkFacadeCore service an ak st = .ok f →
            f.sharedKeyCredential = some ⟨an.getD "", ak.getD ""⟩
            ∧ f.accountKey = ak ∧ f.sasToken = st) := by
  refine ⟨?_, ?_, ?_⟩
  · intro service an ak st f h
    obtain ⟨han, _, _, _, hcase⟩ := mkFacadeCore_ok_elim service an ak st f h
    exact ⟨han, hcase.elim (fun hc => Or.inl hc.1) (fun hc => Or.inr hc.2.1)⟩
  · intro service an ak st h2 h3
    exact mkFacadeCore_missing service an ak st h2 h3
  · intro service an ak st f h1 h2 h
    rw [mkFacadeCore_key service an ak st h1 h2] at h
    cases h
    exact ⟨rfl, rfl, rfl⟩

/-- Claim C4 (amended) witness: instantiated at `accountName = "a"` with
both credentials and with neither. -/
theorem construction_credential_modes_witness :
    (jsTruthy (some "a") = true ∧ (jsTruthy (some "k") = true ∨ jsTruthy (some "t") = true))
    ∧ mkFacadeCore "blob" (some "a") none none = .error ⟨500, "Missing authentication"⟩
    ∧ (Facade.sharedKeyCredential
          ⟨some "a", some "k", some "t", some ⟨"a", "k"⟩,
            .withCredential "https://a.blob.core.windows.net" ⟨"a", "k"⟩⟩
        = some ⟨(some "a").getD "", (some "k").getD ""⟩) := by
  refine ⟨?_, ?_, ?_⟩
  · exact construction_credential_modes.1 "blob" (some "a") (some "k") (some "t")
      ⟨some "a", some "k", some "t", some ⟨"a", "k"⟩,
        .withCredential "https://a.blob.core.windows.net" ⟨"a", "k"⟩⟩ rfl
  · exact construction_credential_modes.2.1 "blob" (some "a") none none rfl rfl
  · exact (construction_credential_modes.2.2 "blob" (some "a") (some "k") (some "t")
      ⟨some "a", some "k", some "t", some ⟨"a", "k"⟩,
        .withCredential "https://a.blob.core.windows.net" ⟨"a", "k"⟩⟩ rfl rfl rfl).1

/-- Claim C2 counterexample: `generateSasToken` is an operation with no
try/catch, so it does not normalize failures to `StorageError`.  On the
facade constructed with a SAS token only (and default arguments), it fails
with the SDK's raw `TypeError`, which is not a `StorageError`. -/
theorem generateSasToken_failure_not_storageError :
    BlobContainer.mk (some "acct") none (some "tok") = .ok sasOnlyBlobFacade
    ∧ BlobContainer.generateSasToken sasOnlyBlobFacade 0 "cont" none none none none
        = .error (.typeError "Invalid sharedKeyCredential, userDelegationKey or accountName.")
    ∧ throwsStorageError
        (BlobContainer.generateSasToken sasOnlyBlobFacade 0 "cont" none none none none)
        = false := ⟨rfl, rfl, rfl⟩

/-- Claim C2 (amended): every try/catch-wrapped operation of BlobContainer
and both StorageQueues either returns its declared result (by type) or fails
with a `StorageError` whose code is the underlying failure's status code
when that code is present and nonzero and `500` otherwise, and whose message
is the underlying failure's message.  `generateSasToken` is the exception:
it has no try/catch, so when no signing credential is available its failure
surfaces as the raw underlying error, not as a `StorageError`. -/
theorem storageError_propagation_policy :
    (∀ e : SdkError,
      BlobContainer.createContainer (.error e) = .error (wrapError e)
      ∧ BlobContainer.listContainers (.error e) = .error (wrapError e)
      ∧ BlobContainer.listBlobs (.error e) = .error (wrapError e)
      ∧ BlobContainer.deleteContainer (.error e) = .error (wrapError e)
      ∧ BlobContainer.deleteBlob (.error e) = .error (wrapError e)
      ∧ StorageQueueV1.create (.error e) = .error (wrapError e)
      ∧ StorageQueueV1.delete (.error e) = .error (wrapError e)
      ∧ StorageQueueV2.create (.error e) = .error (wrapError e)
      ∧ StorageQueueV2.delete (.error e) = .error (wrapError e)
      ∧ (StorageQueueV1.peekMessages (.error e) : Except StorageError (List String))
          = .error (wrapError e)
      ∧ (StorageQueueV2.peekMessages (.error e) : Except StorageError (List String))
          = .error (wrapError e))
    ∧ (∀ (e : SdkError) (bn c : String),
        BlobContainer.createBlob (fun _ _ => .error e) bn c = .error (wrapError e))
    ∧ (∀ e : SdkError,
        BlobContainer.getBlobContent (fun _ _ => .error e) = .error (wrapError e))
    ∧ (∀ (e : SdkError) (cs : List String),
        BlobContainer.getBlobContent (fun _ _ => .ok (.failing cs e)) = .error (wrapError e))
    ∧ (∀ e : SdkError,
        StorageQueueV1.list (fun _ => .error e) = .error (wrapError e))
    ∧ (∀ (e : SdkError) (pfx : Option String),
        StorageQueueV2.list (fun _ => .error e) pfx = .error (wrapError e))
    ∧ (∀ (e : SdkError) (m : String),
        StorageQueueV1.sendMessage (fun _ _ _ => .error e) m = .error (wrapError e))
    ∧ (∀ (e : SdkError) (m : String) (ttl vis : Option Int),
        StorageQueueV2.sendMessage (fun _ _ _ => .error e) m ttl vis = .error (wrapError e))
    ∧ (∀ (c : Nat) (m : String), c ≠ 0 → wrapError ⟨some c, m⟩ = ⟨c, m⟩)
    ∧ (∀ m : String, wrapError ⟨none, m⟩ = ⟨500, m⟩)
    ∧ (∀ (f : Facade) (now : Int) (cn : String) (bn p : Option String) (et cs : Option Int),
        f.sharedKeyCredential = none →
          throwsStorageError (BlobContainer.generateSasToken f now cn bn p et cs) = false
          ∧ (BlobContainer.generateSasToken f now cn bn p et cs).isOk = false)
    ∧ (∀ (f : Facade) (now : Int) (qn : String) (p : Option String) (et cs : Option Int),
        f.sharedKeyCredential = none →
          throwsStorageError (StorageQueueV2.generateSasToken f now qn p et cs) = false
          ∧ (StorageQueueV2.generateSasToken f now qn p et cs).isOk = false) := by
  refine ⟨fun e => ⟨rfl, rfl, rfl, rfl, rfl, rfl, rfl, rfl, rfl, rfl, rfl⟩,
    fun e bn c => rfl, fun e => rfl, fun e cs => rfl, fun e => rfl, fun e pfx => rfl,
    fun e m => rfl, fun e m ttl vis => rfl, fun c m hc => ?_, fun m => rfl, ?_, ?_⟩
  · simp [wrapError, jsOrNat, hc]
  · intro f now cn bn p et cs h
    rcases blob_generateSasToken_noCred_fails f h now cn bn p et cs with heq | ⟨m, heq⟩ <;>
      rw [heq] <;> exact ⟨rfl, rfl⟩
  · intro f now qn p et cs h
    rcases queue_generateSasToken_noCred_fails f h now qn p et cs with heq | ⟨m, heq⟩ <;>
      rw [heq] <;> exact ⟨rfl, rfl⟩

/-- Claim C2 (amended) witness: instantiated at a 404 SDK failure, a
status-less SDK failure, and the SAS-only facade. -/
theorem storageError_propagation_policy_witness :
    BlobContainer.createContainer (.error ⟨some 404, "not found"⟩)
      = .error (wrapError ⟨some 404, "not found"⟩)
    ∧ wrapError ⟨some 404, "not found"⟩ = ⟨404, "not found"⟩
    ∧ wrapError ⟨none, "boom"⟩ = ⟨500, "boom"⟩
    ∧ throwsStorageError
        (BlobContainer.generateSasToken sasOnlyBlobFacade 1 "c2" none none none none)
        = false := by
  have h := storageError_propagation_policy
  exact ⟨(h.1 ⟨some 404, "not found"⟩).1,
    h.2.2.2.2.2.2.2.2.1 404 "not found" (by decide),
    h.2.2.2.2.2.2.2.2.2.1 "boom",
    (h.2.2.2.2.2.2.2.2.2.2.1 sasOnlyBlobFacade 1 "c2" none none none none rfl).1⟩

/-- Claim C3: a successfully generated SAS token (blob or queue) has
`startsOn = now - clockSkewMarginMinutes` and
`expiresOn = now + expireTime` (in minutes, defaults `5` and `60` applying
when the arguments are unspecified), so for positive margins the start time
is strictly before `now` and the expiry time strictly after `now`. -/
theorem generateSasToken_time_window :
    (∀ (f : Facade) (now : Int) (cn : String) (bn p : Option String) (et cs : Option Int)
        (tok : SasQueryParameters),
        BlobContainer.generateSasToken f now cn bn p et cs = .ok tok →
          tok.startsOn = now - (cs.getD 5) * 60000
          ∧ tok.expiresOn = now + (et.getD 60) * 60000
          ∧ (0 < cs.getD 5 → tok.startsOn < now)
          ∧ (0 < et.getD 60 → now < tok.expiresOn))
    ∧ (∀ (f : Facade) (now : Int) (qn : String) (p : Option String) (et cs : Option Int)
        (tok : SasQueryParameters),
        StorageQueueV2.generateSasToken f now qn p et cs = .ok tok →
          tok.startsOn = now - (cs.getD 5) * 60000
          ∧ tok.expiresOn = now + (et.getD 60) * 60000
          ∧ (0 < cs.getD 5 → tok.startsOn < now)
          ∧ (0 < et.getD 60 → now < tok.expiresOn)) := by
  constructor
  · intro f now cn bn p et cs tok h
    obtain ⟨-, hs, he, -, -, -⟩ := blob_generateSasToken_ok_elim f now cn bn p et cs tok h
    refine ⟨hs, he, fun hpos => ?_, fun hpos => ?_⟩
    · rw [hs]; omega
    · rw [he]; omega
  · intro f now qn p et cs tok h
    obtain ⟨-, hs, he, -, -, -, -, -⟩ := queue_generateSasToken_ok_elim f now qn p et cs tok h
    refine ⟨hs, he, fun hpos => ?_, fun hpos => ?_⟩
    · rw [hs]; omega
    · rw [he]; omega

/-- Claim C3 witness: the blob token generated at `now = 0` with all
arguments defaulted starts at `-300000` ms and expires at `3600000` ms. -/
theorem generateSasToken_time_window_witness :
    (-300000 : Int) = 0 - ((none : Option Int).getD 5) * 60000
    ∧ (-300000 : Int) < 0
    ∧ (0 : Int) < 3600000 := by
  have h := generateSasToken_time_window.1 sharedKeyBlobFacade 0 "cont" none none none none
    ⟨.c, .container, "r", -300000, 3600000, "cont", none, ⟨"acct", "key"⟩⟩ (by rfl)
  exact ⟨h.1, h.2.2.1 (by norm_num), h.2.2.2 (by norm_num)⟩

/-- Claim C5: a facade constructed without a truthy accountKey retains no
signing credential, and every call to `generateSasToken` on it fails; a
facade constructed with a truthy accountName and accountKey holds the
shared-key credential built from them, and every token it successfully
generates is signed with exactly that credential.  Stated for BlobContainer
and for the SAS-capable StorageQueue. -/
theorem sas_instances_cannot_sign_key_instances_sign :
    (∀ (an ak st : Option String) (f : Facade),
        jsTruthy ak = false → BlobContainer.mk an ak st = .ok f →
          f.sharedKeyCredential = none
          ∧ ∀ (now : Int) (cn : String) (bn p : Option String) (et cs : Option Int),
              (BlobContainer.generateSasToken f now cn bn p et cs).isOk = false)
    ∧ (∀ (an ak st : Option String) (f : Facade),
        jsTruthy an = true → jsTruthy ak = true → BlobContainer.mk an ak st = .ok f →
          f.sharedKeyCredential = some ⟨an.getD "", ak.getD ""⟩
          ∧ ∀ (now : Int) (cn : String) (bn p : Option String) (et cs : Option Int)
              (tok : SasQueryParameters),
              BlobContainer.generateSasToken f now cn bn p et cs = .ok tok →
                tok.signedWith = ⟨an.getD "", ak.getD ""⟩)
    ∧ (∀ (an ak st : Option String) (f : Facade),
        jsTruthy ak = false → StorageQueueV2.mk an ak st = .ok f →
          f.sharedKeyCredential = none
          ∧ ∀ (now : Int) (qn : String) (p : Option String) (et cs : Option Int),
              (StorageQueueV2.generateSasToken f now qn p et cs).isOk = false)
    ∧ (∀ (an ak st : Option String) (f : Facade),
        jsTruthy an = true → jsTruthy ak = true → StorageQueueV2.mk an ak st = .ok f →
          f.sharedKeyCredential = some ⟨an.getD "", ak.getD ""⟩
          ∧ ∀ (now : Int) (qn : String) (p : Option String) (et cs : Option Int)
              (tok : SasQueryParameters),
              StorageQueueV2.generateSasToken f now qn p et cs = .ok tok →
                tok.signedWith = ⟨an.getD "", ak.getD ""⟩) := by
  refine ⟨?_, ?_, ?_, ?_⟩
  · intro an ak st f hak h
    obtain ⟨-, -, -, -, hcase⟩ := mkFacadeCore_ok_elim "blob" an ak st f h
    have hcred : f.sharedKeyCredential = none := by
      rcases hcase with ⟨hak2, -⟩ | ⟨-, -, hc⟩
      · rw [hak2] at hak; exact absurd hak (by simp)
      · exact hc
    refine ⟨hcred, fun now cn bn p et cs => ?_⟩
    rcases blob_generateSasToken_noCred_fails f hcred now cn bn p et cs with heq | ⟨m, heq⟩ <;>
      rw [heq] <;> rfl
  · intro an ak st f han hak h
    have h' : mkFacadeCore "blob" an ak st = .ok f := h
    rw [mkFacadeCore_key "blob" an ak st han hak] at h'
    cases h'
    refine ⟨rfl, fun now cn bn p et cs tok h => ?_⟩
    have := (blob_generateSasToken_ok_elim _ now cn bn p et cs tok h).1
    simp only [Option.some.injEq] at this
    exact this.symm
  · intro an ak st f hak h
    obtain ⟨-, -, -, -, hcase⟩ := mkFacadeCore_ok_elim "queue" an ak st f h
    have hcred : f.sharedKeyCredential = none := by
      rcases hcase with ⟨hak2, -⟩ | ⟨-, -, hc⟩
      · rw [hak2] at hak; exact absurd hak (by simp)
      · exact hc
    refine ⟨hcred, fun now qn p et cs => ?_⟩
    rcases queue_generateSasToken_noCred_fails f hcred now qn p et cs with heq | ⟨m, heq⟩ <;>
      rw [heq] <;> rfl
  · intro an ak st f han hak h
    have h' : mkFacadeCore "queue" an ak st = .ok f := h
    rw [mkFacadeCore_key "queue" an ak st han hak] at h'
    cases h'
    refine ⟨rfl, fun now qn p et cs tok h => ?_⟩
    have := (queue_generateSasToken_ok_elim _ now qn p et cs tok h).1
    simp only [Option.some.injEq] at this
    exact this.symm

/-- Claim C5 witness: instantiated at the SAS-only blob facade (signing
fails) and the shared-key blob facade (the generated token is signed with
the construction-time credential). -/
theorem sas_instances_cannot_sign_witness :
    sasOnlyBlobFacade.sharedKeyCredential = none
    ∧ (BlobContainer.generateSasToken sasOnlyBlobFacade 0 "cont" none none none none).isOk
        = false
    ∧ (⟨.c, .container, "r", -300000, 3600000, "cont", none, ⟨"acct", "key"⟩⟩
          : SasQueryParameters).signedWith
        = ⟨(some "acct").getD "", (some "key").getD ""⟩ := by
  have h1 := sas_instances_cannot_sign_key_instances_sign.1 (some "acct") none (some "tok")
    sasOnlyBlobFacade rfl rfl
  have h2 := sas_instances_cannot_sign_key_instances_sign.2.1 (some "acct") (some "key") none
    sharedKeyBlobFacade rfl rfl rfl
  exact ⟨h1.1, h1.2 0 "cont" none none none none,
    h2.2 0 "cont" none none none none
      ⟨.c, .container, "r", -300000, 3600000, "cont", none, ⟨"acct", "key"⟩⟩ rfl⟩

/-- Claim C6: with unspecified (null) permissions a generated token's
permissions are exactly `"r"`; when a blob name is given (truthy) the token
is blob-scoped (resource `b`, blob-type permissions, the blob name carried),
otherwise it is container-scoped (resource `c`, container-type permissions);
a queue token is always queue-scoped (resource `q`, queue-type permissions). -/
theorem generateSasToken_default_permissions_and_scope :
    (∀ (f : Facade) (now : Int) (cn : String) (bn : Option String) (et cs : Option Int)
        (tok : SasQueryParameters),
        BlobContainer.generateSasToken f now cn bn none et cs = .ok tok →
          tok.permissions = "r")
    ∧ (∀ (f : Facade) (now : Int) (qn : String) (et cs : Option Int)
        (tok : SasQueryParameters),
        StorageQueueV2.generateSasToken f now qn none et cs = .ok tok →
          tok.permissions = "r")
    ∧ (∀ (f : Facade) (now : Int) (cn : String) (bn p : Option String) (et cs : Option Int)
        (tok : SasQueryParameters),
        BlobContainer.generateSasToken f now cn bn p et cs = .ok tok →
          (jsTruthy bn = true →
            tok.resource = .b ∧ tok.blobName = bn ∧ tok.permKind = .blob)
          ∧ (jsTruthy bn = false →
            tok.resource = .c ∧ tok.blobName = none ∧ tok.permKind = .container))
    ∧ (∀ (f : Facade) (now : Int) (qn : String) (p : Option String) (et cs : Option Int)
        (tok : SasQueryParameters),
        StorageQueueV2.generateSasToken f now qn p et cs = .ok tok →
          tok.resource = .q ∧ tok.permKind = .queue ∧ tok.containerName = qn) := by
  refine ⟨?_, ?_, ?_, ?_⟩
  · intro f now cn bn et cs tok h
    obtain ⟨-, -, -, -, hb, hc⟩ := blob_generateSasToken_ok_elim f now cn bn none et cs tok h
    cases hbn : jsTruthy bn with
    | true =>
        obtain ⟨-, -, -, pp, hp, hperm⟩ := hb hbn
        simp only [jsOrStr] at hp
        have : pp = ⟨true, false, false, false, false⟩ := by
          have := hp.symm.trans (rfl : BlobSASPermissions.parse "r"
            = .ok ⟨true, false, false, false, false⟩)
          exact (Except.ok.injEq _ _).mp this
        rw [hperm, this]
        rfl
    | false =>
        obtain ⟨-, -, -, pp, hp, hperm⟩ := hc hbn
        simp only [jsOrStr] at hp
        have : pp = ⟨true, false, false, false, false, false⟩ := by
          have := hp.symm.trans (rfl : ContainerSASPermissions.parse "r"
            = .ok ⟨true, false, false, false, false, false⟩)
          exact (Except.ok.injEq _ _).mp this
        rw [hperm, this]
        rfl
  · intro f now qn et cs tok h
    obtain ⟨-, -, -, -, -, -, -, pp, hp, hperm⟩ :=
      queue_generateSasToken_ok_elim f now qn none et cs tok h
    simp only [jsOrStr] at hp
    have : pp = ⟨true, false, false, false⟩ := by
      have := hp.symm.trans (rfl : QueueSASPermissions.parse "r"
        = .ok ⟨true, false, false, false⟩)
      exact (Except.ok.injEq _ _).mp this
    rw [hperm, this]
    rfl
  · intro f now cn bn p et cs tok h
    obtain ⟨-, -, -, -, hb, hc⟩ := blob_generateSasToken_ok_elim f now cn bn p et cs tok h
    exact ⟨fun ht => ⟨(hb ht).1, (hb ht).2.1, (hb ht).2.2.1⟩,
      fun hf => ⟨(hc hf).1, (hc hf).2.1, (hc hf).2.2.1⟩⟩
  · intro f now qn p et cs tok h
    obtain ⟨-, -, -, hqn, hr, hk, -, -⟩ :=
      queue_generateSasToken_ok_elim f now qn p et cs tok h
    exact ⟨hr, hk, hqn⟩

/-- Claim C6 witness: instantiated at the shared-key facades with default
permissions, for a blob-scoped, a container-scoped and a queue-scoped token. -/
theorem generateSasToken_default_permissions_witness :
    (⟨.b, .blob, "r", -300000, 3600000, "cont", some "b.txt", ⟨"acct", "key"⟩⟩
        : SasQueryParameters).permissions = "r"
    ∧ (⟨.b, .blob, "r", -300000, 3600000, "cont", some "b.txt", ⟨"acct", "key"⟩⟩
        : SasQueryParameters).resource = .b
    ∧ (⟨.c, .container, "r", -300000, 3600000, "cont", none, ⟨"acct", "key"⟩⟩
        : SasQueryParameters).resource = .c
    ∧ (⟨.q, .queue, "r", -300000, 3600000, "q1", none, ⟨"acct", "key"⟩⟩
        : SasQueryParameters).resource = .q := by
  have hb := generateSasToken_default_permissions_and_scope.1 sharedKeyBlobFacade 0 "cont"
    (some "b.txt") none none
    ⟨.b, .blob, "r", -300000, 3600000, "cont", some "b.txt", ⟨"acct", "key"⟩⟩ (by rfl)
  have hscope := generateSasToken_default_permissions_and_scope.2.2.1 sharedKeyBlobFacade 0
    "cont" (some "b.txt") none none none
    ⟨.b, .blob, "r", -300000, 3600000, "cont", some "b.txt", ⟨"acct", "key"⟩⟩ (by rfl)
  have hcont := generateSasToken_default_permissions_and_scope.2.2.1 sharedKeyBlobFacade 0
    "cont" none none none none
    ⟨.c, .container, "r", -300000, 3600000, "cont", none, ⟨"acct", "key"⟩⟩ (by rfl)
  have hq := generateSasToken_default_permissions_and_scope.2.2.2 sharedKeyQueueFacade 0
    "q1" none none none
    ⟨.q, .queue, "r", -300000, 3600000, "q1", none, ⟨"acct", "key"⟩⟩ (by rfl)
  exact ⟨hb, (hscope.1 rfl).1, (hcont.2 rfl).1, hq.1⟩

/-- Claim C7: `getBlobContent` downloads from offset `0` with no length
limit — its result depends only on the SDK download behaviour at
`(0, none)` — and on success returns the in-order concatenation of every
chunk of the fully drained stream as a single string. -/
theorem getBlobContent_offset0_concatenates_stream :
    (∀ (download : Int → Option Int → Except SdkError StreamBody) (cs : List String),
        download 0 none = .ok (.chunks cs) →
          BlobContainer.getBlobContent download = .ok (String.join cs))
    ∧ (∀ d1 d2 : Int → Option Int → Except SdkError StreamBody,
        d1 0 none = d2 0 none →
          BlobContainer.getBlobContent d1 = BlobContainer.getBlobContent d2) := by
  constructor
  · intro download cs h
    simp only [BlobContainer.getBlobContent, h]
    rfl
  · intro d1 d2 h
    simp only [BlobContainer.getBlobContent, h]

/-- Claim C7 witness: a two-chunk stream at offset `(0, none)` is
concatenated to a single string. -/
theorem getBlobContent_witness :
    BlobContainer.getBlobContent (fun _ _ => .ok (.chunks ["ab", "cd"])) = .ok "abcd"
    ∧ BlobContainer.getBlobContent (fun _ _ => .ok (.chunks ["ab", "cd"]))
        = BlobContainer.getBlobContent (fun _ _ => .ok (.chunks ["ab", "cd"])) := by
  exact ⟨getBlobContent_offset0_concatenates_stream.1 (fun _ _ => .ok (.chunks ["ab", "cd"]))
      ["ab", "cd"] rfl,
    getBlobContent_offset0_concatenates_stream.2 (fun _ _ => .ok (.chunks ["ab", "cd"]))
      (fun _ _ => .ok (.chunks ["ab", "cd"])) rfl⟩

/-- Claim C8: `createBlob` passes `Buffer.byteLength(content)` — the UTF-8
byte length of the content, not a caller-supplied length — to the upload,
whose behaviour at `(content, byteLength content)` alone determines the
result, and on success returns the upload response's `requestId`. -/
theorem createBlob_uses_byte_length :
    (∀ (upload : String → Nat → Except SdkError SdkResponse) (bn content : String)
        (r : SdkResponse),
        upload content content.utf8ByteSize = .ok r →
          BlobContainer.createBlob upload bn content = .ok r.requestId)
    ∧ (∀ (u1 u2 : String → Nat → Except SdkError SdkResponse) (bn content : String),
        u1 content content.utf8ByteSize = u2 content content.utf8ByteSize →
          BlobContainer.createBlob u1 bn content = BlobContainer.createBlob u2 bn content) := by
  constructor
  · intro upload bn content r h
    simp only [BlobContainer.createBlob, h]
    rfl
  · intro u1 u2 bn content h
    simp only [BlobContainer.createBlob, h]

/-- Claim C8 witness: uploading `"hé"` (3 UTF-8 bytes) returns the upload
response's request id. -/
theorem createBlob_witness :
    BlobContainer.createBlob (fun _ _ => .ok ⟨"req1"⟩) "b.txt" "hé" = .ok "req1"
    ∧ "hé".utf8ByteSize = 3 := by
  exact ⟨createBlob_uses_byte_length.1 (fun _ _ => .ok ⟨"req1"⟩) "b.txt" "hé" ⟨"req1"⟩ rfl,
    rfl⟩

/-- Claim C9: `StorageQueue.list` passes the prefix to the underlying
listing only when truthy (non-null, non-empty); a null or empty prefix
consults the unfiltered listing; the result is the fully materialized list
of queue names from the enumeration. -/
theorem queue_list_prefix_passthrough :
    (∀ (lq : Option String → Except SdkError (List QueueItem)) (pfx : Option String)
        (items : List QueueItem),
        jsTruthy pfx = true → lq pfx = .ok items →
          StorageQueueV2.list lq pfx = .ok (items.map (fun q => q.name)))
    ∧ (∀ (lq : Option String → Except SdkError (List QueueItem)) (pfx : Option String)
        (items : List QueueItem),
        jsTruthy pfx = false → lq none = .ok items →
          StorageQueueV2.list lq pfx = .ok (items.map (fun q => q.name))) := by
  constructor
  · intro lq pfx items hpfx h
    simp only [StorageQueueV2.list, hpfx, if_true, h]
    rfl
  · intro lq pfx items hpfx h
    simp only [StorageQueueV2.list, hpfx, Bool.false_eq_true, if_false, h]
    rfl

/-- Claim C9 witness: a truthy prefix `"test"` is forwarded; a null prefix
consults the unfiltered listing. -/
theorem queue_list_prefix_witness :
    StorageQueueV2.list (fun _ => .ok [⟨"testq"⟩]) (some "test") = .ok ["testq"]
    ∧ StorageQueueV2.list (fun _ => .ok [⟨"testq"⟩]) none = .ok ["testq"] := by
  exact ⟨queue_list_prefix_passthrough.1 (fun _ => .ok [⟨"testq"⟩]) (some "test")
      [⟨"testq"⟩] rfl rfl,
    queue_list_prefix_passthrough.2 (fun _ => .ok [⟨"testq"⟩]) none [⟨"testq"⟩] rfl rfl⟩

end StorageLib
